import Mathlib

/-!
Shallow embedding of the scoring engine in `src/demo_engine.py` (class
`CogaintLeanDemo`).  Numbers that Python passes around as `int` or `float`
are modelled as `ℚ`; dynamically typed values that may also be strings are
modelled by `PyVal`; Python exceptions are modelled with `Except String`.
Presentation-only justification strings (the `factors` lists, `reasoning`
and `pattern_analysis` texts) are not modelled except where a returned
adjustment rides along with them.
-/

/-- A dynamically typed Python value as it appears in uploaded mappings and
in parsed JSON: a number (Python `int` and `float` both compare and add with
numbers, so one rational constructor covers both) or a string (comparing or
adding it with a number raises `TypeError`). -/
inductive PyVal where
  | num (q : ℚ)
  | str (s : String)
deriving DecidableEq, Repr

/-- Extracting the numeric value of a `PyVal` for a Python comparison such
as `inventory_turns > 8`: on a string the comparison raises `TypeError`. -/
def pv_num (v : PyVal) : Except String ℚ :=
  match v with
  | .num q => .ok q
  | .str _ => .error "TypeError: not supported between instances of str and int"

/-- Python `base_score += adjustment` where `adjustment` is dynamically
typed: adding a string to a number raises `TypeError`. -/
def pyAdd (a : ℚ) (v : PyVal) : Except String ℚ :=
  match v with
  | .num q => .ok (a + q)
  | .str _ => .error "TypeError: unsupported operand types for int and str"

/-- Decidable equality for `Except` results, used to evaluate the engine
at concrete inputs. -/
instance {ε α : Type} [DecidableEq ε] [DecidableEq α] : DecidableEq (Except ε α)
  | .ok a, .ok b =>
      if h : a = b then .isTrue (by rw [h]) else .isFalse (by simp [h])
  | .error e, .error f =>
      if h : e = f then .isTrue (by rw [h]) else .isFalse (by simp [h])
  | .ok _, .error _ => .isFalse (by simp)
  | .error _, .ok _ => .isFalse (by simp)

/-- A business profile as consumed by `calculate_business_score` (the
fields of a `demo_companies` entry that the scoring logic reads). -/
structure Company where
  revenue : ℚ
  inventory_turns : ℚ
  industry : String
  years_operating : ℚ
deriving DecidableEq, Repr

/-- The `"VelocitySnacks (High Performer)"` entry of `demo_companies`
(scoring-relevant fields). -/
def velocitySnacks : Company :=
  { revenue := 3500000, inventory_turns := 12,
    industry := "Food & Beverage", years_operating := 4 }

/-- Inventory-velocity adjustment of `calculate_business_score`:
`turns > 8 → +25`, `turns > 4 → +15`, `turns > 2 → +5`, else `−15`. -/
def velocity_boost (turns : ℚ) : Int :=
  if turns > 8 then 25
  else if turns > 4 then 15
  else if turns > 2 then 5
  else -15

/-- Revenue-size adjustment of `calculate_business_score`:
`revenue > 5000000 → +15`, `revenue > 1000000 → +10`,
`revenue < 500000 → −10`, else `+5`. -/
def revenue_boost (revenue : ℚ) : Int :=
  if revenue > 5000000 then 15
  else if revenue > 1000000 then 10
  else if revenue < 500000 then -10
  else 5

/-- The `industry_factors` lookup of `calculate_business_score`, with the
`.get` default `(0, "Standard industry risk")` for unknown industries. -/
def industry_factors (industry : String) : Int × String :=
  if industry = "Food & Beverage" then (10, "Low risk, stable demand")
  else if industry = "Supplements" then (5, "Moderate risk, growing market")
  else if industry = "Specialty Foods" then (-5, "Higher risk, niche market")
  else if industry = "Beauty & Personal Care" then (0, "Moderate risk, competitive")
  else (0, "Standard industry risk")

/-- Experience adjustment of `calculate_business_score`:
`years > 5 → +10`, `years > 2 → +5`, else `−5`. -/
def experience_boost (years : ℚ) : Int :=
  if years > 5 then 10
  else if years > 2 then 5
  else -5

/-- The local fallback insight table `_get_fallback_business_insights`
reduced to its adjustment: `turns > 8 → +10`, `turns < 3 → −10`, else `0`. -/
def fallback_adjustment (turns : ℚ) : Int :=
  if turns > 8 then 10
  else if turns < 3 then -10
  else 0

/-- Adjustment-and-factors pair returned by
`_get_fallback_business_insights`. -/
def get_fallback_business_insights (c : Company) : PyVal × List String :=
  if c.inventory_turns > 8 then
    (.num 10, ["Analysis: Strong operational efficiency indicators"])
  else if c.inventory_turns < 3 then
    (.num (-10), ["Analysis: Inventory management concerns detected"])
  else
    (.num 0, ["Analysis: Standard operational patterns detected"])

/-- The external collaborator outcome as observed inside
`_get_ai_business_insights`: `unavailable` covers not-configured, timeout,
API error and non-JSON text (in all of these an exception is raised inside
the `try` block, or the `else` branch runs, and the local fallback is used);
`json adj` is a successfully parsed JSON object whose optional
`"risk_adjustment"` entry is `adj` (absent key modelled as `none`). -/
inductive AIResponse where
  | unavailable
  | json (adj : Option PyVal)
deriving DecidableEq, Repr

/-- The adjustment that `_get_ai_business_insights` hands back to
`calculate_business_score`: the local fallback when the collaborator is
unavailable, otherwise `ai_result.get("risk_adjustment", 0)`. -/
def get_ai_business_insights (c : Company) (resp : AIResponse) : PyVal :=
  match resp with
  | .unavailable => (get_fallback_business_insights c).1
  | .json adj => adj.getD (.num 0)

/-- Risk category step table `_get_risk_category`. -/
def get_risk_category (score : ℚ) : String :=
  if score ≥ 75 then "Low Risk"
  else if score ≥ 60 then "Medium Risk"
  else if score ≥ 45 then "High Risk"
  else "Very High Risk"

/-- Rate step table `_score_to_rate`.  The Python literals 10.5, 12.5,
15.0, 17.5, 20.0, 22.0 are written as the equal rationals 21/2, 25/2, 15,
35/2, 20, 22 so that they evaluate in the kernel. -/
def score_to_rate (score : ℚ) : ℚ :=
  if score ≥ 80 then 21/2
  else if score ≥ 70 then 25/2
  else if score ≥ 60 then 15
  else if score ≥ 50 then 35/2
  else if score ≥ 40 then 20
  else 22

/-- Decision step table `_get_decision`. -/
def get_decision (score : ℚ) : String :=
  if score ≥ 60 then "APPROVED"
  else if score ≥ 45 then "APPROVED with conditions"
  else if score ≥ 30 then "REFER for manual review"
  else "DECLINED"

/-- The scoring result of `calculate_business_score` (the `ai_status`
presentation field is not modelled). -/
structure ScoreResult where
  final_score : ℚ
  risk_category : String
  recommended_rate : ℚ
  decision : String
deriving DecidableEq, Repr

/-- The result dictionary built at the end of `calculate_business_score`:
every derived field is computed from `final_score` alone. -/
def scoreResultOf (final_score : ℚ) : ScoreResult :=
  { final_score := final_score,
    risk_category := get_risk_category final_score,
    recommended_rate := score_to_rate final_score,
    decision := get_decision final_score }

/-- The integer score accumulated by `calculate_business_score` before the
AI-insight adjustment: base 50 plus the velocity, revenue, industry and
experience adjustments, in that order. -/
def pre_ai_score (c : Company) : Int :=
  50 + velocity_boost c.inventory_turns + revenue_boost c.revenue
    + (industry_factors c.industry).1 + experience_boost c.years_operating

/-- The full-analysis entry point `calculate_business_score`.  The
collaborator outcome is passed explicitly; `base_score += ai_boost["adjustment"]`
is the one dynamically typed addition and can raise (hence `Except`).
The final score is clamped exactly once, at the end. -/
def calculate_business_score (c : Company) (resp : AIResponse) :
    Except String ScoreResult :=
  match pyAdd (pre_ai_score c : ℚ) (get_ai_business_insights c resp) with
  | .error e => .error e
  | .ok s =>
      let final_score : ℚ := max 0 (min 100 s)
      .ok (scoreResultOf final_score)

/-- An uploaded mapping as read by `process_customer_upload`: each expected
key may be absent (the `.get` default applies) or hold any Python value. -/
structure Upload where
  revenue : Option PyVal := none
  inventory_turns : Option PyVal := none
  industry : Option PyVal := none
  years_operating : Option PyVal := none
deriving DecidableEq, Repr

/-- Inventory adjustment of `process_customer_upload`:
`turns > 8 → +25`, `turns > 4 → +15`, `turns < 2 → −15`, else `0`
(there is no `+5` bucket and no branch for `turns = 2` exactly). -/
def upload_velocity_boost (turns : ℚ) : Int :=
  if turns > 8 then 25
  else if turns > 4 then 15
  else if turns < 2 then -15
  else 0

/-- Revenue adjustment of `process_customer_upload`:
`revenue > 5000000 → +15`, `revenue > 1000000 → +10`,
`revenue < 500000 → −10`, else `0` (no `+5` middle bucket). -/
def upload_revenue_boost (revenue : ℚ) : Int :=
  if revenue > 5000000 then 15
  else if revenue > 1000000 then 10
  else if revenue < 500000 then -10
  else 0

/-- Outcome of `process_customer_upload`: either the scoring dictionary
(`next_steps` and `ai_status` presentation fields not modelled) or the
structured `{error, suggestion}` dictionary produced by the `except` branch. -/
inductive UploadResult where
  | success (score : ℚ) (rate : ℚ) (decision : String)
  | failure (error suggestion : String)
deriving DecidableEq, Repr

/-- The upload entry point `process_customer_upload`.  The body reads
`revenue` and `inventory_turns` (with defaults 1000000 and 4), compares them
against the thresholds (the first comparison on a string value raises
`TypeError`; `industry` and `years_operating` are fetched but never used),
clamps once, and maps the score through the rate and decision tables; the
surrounding `try/except` converts any raised exception into the structured
error result. -/
def process_customer_upload (u : Upload) : UploadResult :=
  let revenue := u.revenue.getD (.num 1000000)
  let inventory_turns := u.inventory_turns.getD (.num 4)
  let body : Except String (ℚ × ℚ × String) := do
    let qturns ← pv_num inventory_turns
    let qrev ← pv_num revenue
    let base_score : Int := 50 + upload_velocity_boost qturns + upload_revenue_boost qrev
    let final_score : ℚ := max 0 (min 100 (base_score : ℚ))
    pure (final_score, score_to_rate final_score, get_decision final_score)
  match body with
  | .ok (s, r, d) => .success s r d
  | .error e =>
      .failure ("Processing failed: " ++ e)
        "Please check your data format and try again"

/-- A parallel-identifier record as consumed by
`_get_enhanced_fallback_analysis` (one entry of a `skus` list). -/
structure Sku where
  name : String
  erp : String
  wms : String
  shopify : String
deriving DecidableEq, Repr

/-- Python substring containment `needle in haystack`. -/
def strContains (haystack needle : String) : Bool :=
  (List.range (haystack.length + 1)).any
    (fun i => needle.toList.isPrefixOf (haystack.toList.drop i))

/-- Python `str.split()` with no argument: split on whitespace runs,
dropping empty pieces. -/
def pySplitWs (s : String) : List String :=
  (s.split Char.isWhitespace).filter (fun p => p ≠ "")

/-- Result of `_get_enhanced_fallback_analysis` (the `reasoning` and
`pattern_analysis` presentation strings are not modelled). -/
structure FallbackAnalysis where
  same_product : Bool
  confidence : Int
  unified_name : String
  risk_factors : List String
deriving DecidableEq, Repr

/-- The local identifier-matching fallback `_get_enhanced_fallback_analysis`:
confidence starts at 85 and gains 5 for each of three corroborating signals,
then is capped with `min(confidence, 98)`; `same_product` is the literal
`True`. -/
def get_enhanced_fallback_analysis (sku : Sku) : FallbackAnalysis :=
  let erp_parts := sku.erp.splitOn "-"
  let wms_parts := sku.wms.splitOn "_"
  let confidence0 : Int := 85
  let confidence1 : Int :=
    if erp_parts.any (fun part => strContains (sku.name.toLower) (part.toLower))
    then confidence0 + 5 else confidence0
  let confidence2 : Int :=
    if wms_parts.any (fun part => strContains (sku.name.toLower) (part.toLower))
    then confidence1 + 5 else confidence1
  let confidence3 : Int :=
    if (pySplitWs (sku.name.toLower)).any (fun part => strContains sku.shopify part)
    then confidence2 + 5 else confidence2
  { same_product := true,
    confidence := min confidence3 98,
    unified_name := sku.name,
    risk_factors := if confidence3 > 90 then [] else ["Manual verification recommended"] }

/-! Helper lemmas connecting the entry points to the bucket functions. -/

/-- The adjustment component of the fallback insights is the numeric
fallback table value. -/
lemma fallback_fst (c : Company) :
    (get_fallback_business_insights c).1 =
      PyVal.num ((fallback_adjustment c.inventory_turns : Int) : ℚ) := by
  unfold get_fallback_business_insights fallback_adjustment
  split_ifs <;> norm_num

/-- Evaluation of `calculate_business_score` when the collaborator response
is a parsed JSON object carrying a numeric adjustment. -/
lemma calculate_json_num (c : Company) (q : ℚ) :
    calculate_business_score c (.json (some (.num q))) =
      .ok (scoreResultOf (max 0 (min 100 ((pre_ai_score c : ℚ) + q)))) := rfl

/-- Evaluation of `calculate_business_score` when the collaborator response
is a parsed JSON object with no `"risk_adjustment"` key: the `.get` default
0 is added, not the fallback adjustment. -/
lemma calculate_json_none (c : Company) :
    calculate_business_score c (.json none) =
      .ok (scoreResultOf ((max 0 (min 100 (pre_ai_score c)) : Int) : ℚ)) := by
  show Except.ok (scoreResultOf (max 0 (min 100 ((pre_ai_score c : ℚ) + 0)))) = _
  rw [add_zero]
  push_cast
  rfl

/-- Evaluation of `calculate_business_score` when the collaborator response
is a parsed JSON object whose adjustment value is a string: the dynamically
typed `+=` raises and the exception leaves `calculate_business_score`. -/
lemma calculate_json_str (c : Company) (s : String) :
    calculate_business_score c (.json (some (.str s))) =
      .error "TypeError: unsupported operand types for int and str" := rfl

/-- Evaluation of `calculate_business_score` when the collaborator is
unavailable: the local fallback adjustment is summed and the whole integer
sum is clamped once. -/
lemma calculate_unavailable (c : Company) :
    calculate_business_score c .unavailable =
      .ok (scoreResultOf
        ((max 0 (min 100 (pre_ai_score c + fallback_adjustment c.inventory_turns)) : Int) : ℚ)) := by
  have hclamp :
      max 0 (min 100 ((pre_ai_score c : ℚ) + ((fallback_adjustment c.inventory_turns : Int) : ℚ)))
        = ((max 0 (min 100 (pre_ai_score c + fallback_adjustment c.inventory_turns)) : Int) : ℚ) := by
    push_cast; ring
  unfold calculate_business_score get_ai_business_insights
  rw [fallback_fst]
  dsimp only [pyAdd]
  rw [hclamp]

/-- Every `ok` result of `calculate_business_score` is the result record
built from its own final score. -/
lemma calculate_ok_shape (c : Company) (resp : AIResponse) (r : ScoreResult)
    (h : calculate_business_score c resp = .ok r) :
    r = scoreResultOf r.final_score := by
  unfold calculate_business_score at h
  cases hp : pyAdd (pre_ai_score c : ℚ) (get_ai_business_insights c resp) with
  | error e => rw [hp] at h; exact absurd h (by simp)
  | ok s =>
      rw [hp] at h
      simp only [Except.ok.injEq] at h
      subst h
      rfl

/-- The single clamped integer score computed by `process_customer_upload`
for numeric inputs. -/
def upload_final_score (qturns qrev : ℚ) : Int :=
  max 0 (min 100 (50 + upload_velocity_boost qturns + upload_revenue_boost qrev))

/-- Evaluation of `process_customer_upload` when both inspected fields hold
numbers (after defaulting). -/
lemma process_num (u : Upload) (qt qrev : ℚ)
    (ht : u.inventory_turns.getD (PyVal.num 4) = PyVal.num qt)
    (hrev : u.revenue.getD (PyVal.num 1000000) = PyVal.num qrev) :
    process_customer_upload u =
      .success ((upload_final_score qt qrev : Int) : ℚ)
        (score_to_rate ((upload_final_score qt qrev : Int) : ℚ))
        (get_decision ((upload_final_score qt qrev : Int) : ℚ)) := by
  unfold process_customer_upload
  rw [ht, hrev]
  have hclamp :
      max 0 (min 100 ((50 + upload_velocity_boost qt + upload_revenue_boost qrev : Int) : ℚ))
        = ((upload_final_score qt qrev : Int) : ℚ) := by
    unfold upload_final_score; push_cast; ring
  simp only [pv_num, bind, Except.bind, pure, Except.pure, hclamp]

/-- Evaluation of `process_customer_upload` when the (defaulted) inventory
field holds a string: the first threshold comparison raises `TypeError` and
the `except` branch reports the structured error. -/
lemma process_turns_str (u : Upload) (s : String)
    (ht : u.inventory_turns.getD (PyVal.num 4) = PyVal.str s) :
    process_customer_upload u =
      .failure "Processing failed: TypeError: not supported between instances of str and int"
        "Please check your data format and try again" := by
  unfold process_customer_upload
  rw [ht]
  simp only [pv_num, bind, Except.bind]
  rfl

/-- Evaluation of `process_customer_upload` when inventory is numeric but
the (defaulted) revenue field holds a string. -/
lemma process_rev_str (u : Upload) (qt : ℚ) (s : String)
    (ht : u.inventory_turns.getD (PyVal.num 4) = PyVal.num qt)
    (hrev : u.revenue.getD (PyVal.num 1000000) = PyVal.str s) :
    process_customer_upload u =
      .failure "Processing failed: TypeError: not supported between instances of str and int"
        "Please check your data format and try again" := by
  unfold process_customer_upload
  rw [ht, hrev]
  simp only [pv_num, bind, Except.bind]
  rfl

/-- The velocity bucket table of `calculate_business_score` is monotone in
the number of turns. -/
lemma velocity_boost_mono {t₁ t₂ : ℚ} (h : t₁ ≤ t₂) :
    velocity_boost t₁ ≤ velocity_boost t₂ := by
  unfold velocity_boost
  split_ifs <;> first | (exfalso; linarith) | norm_num

/-- The fallback insight table is monotone in the number of turns. -/
lemma fallback_adjustment_mono {t₁ t₂ : ℚ} (h : t₁ ≤ t₂) :
    fallback_adjustment t₁ ≤ fallback_adjustment t₂ := by
  unfold fallback_adjustment
  split_ifs <;> first | (exfalso; linarith) | norm_num

/-- Every `success` result of `process_customer_upload` carries the rate and
decision computed from its own score. -/
lemma process_success_shape (u : Upload) (s rate : ℚ) (d : String)
    (h : process_customer_upload u = .success s rate d) :
    rate = score_to_rate s ∧ d = get_decision s := by
  cases ht : u.inventory_turns.getD (PyVal.num 4) with
  | str sv => rw [process_turns_str u sv ht] at h; exact absurd h (by simp)
  | num qt =>
      cases hrv : u.revenue.getD (PyVal.num 1000000) with
      | str sv => rw [process_rev_str u qt sv ht hrv] at h; exact absurd h (by simp)
      | num qrev =>
          rw [process_num u qt qrev ht hrv] at h
          simp only [UploadResult.success.injEq] at h
          obtain ⟨hs, hr, hd⟩ := h
          subst hs
          exact ⟨hr.symm, hd.symm⟩

/-- C9: scoring the demo profile revenue 3500000, turns 12, industry
Food and Beverage, years 4 with the collaborator unavailable gives an
unclamped sum of 110 (over 100), hence final score 100, rate 10.5,
decision APPROVED and category Low Risk. -/
theorem C9_velocitysnacks_scenario :
    pre_ai_score velocitySnacks + fallback_adjustment velocitySnacks.inventory_turns = 110 ∧
    (100 : Int) < 110 ∧
    calculate_business_score velocitySnacks .unavailable =
      .ok { final_score := 100, risk_category := "Low Risk",
            recommended_rate := 10.5, decision := "APPROVED" } := by
  refine ⟨?_, by norm_num, ?_⟩
  · norm_num [pre_ai_score, fallback_adjustment, velocity_boost, revenue_boost,
      industry_factors, experience_boost, velocitySnacks]
  · norm_num [calculate_business_score, velocitySnacks, pre_ai_score, velocity_boost,
      revenue_boost, industry_factors, experience_boost, get_ai_business_insights,
      get_fallback_business_insights, pyAdd, scoreResultOf, get_risk_category,
      score_to_rate, get_decision]

/-- C10: the local identifier-matching fallback always reports
`same_product = True`, and its confidence is one of 85, 90, 95 or 98, hence
in the interval [85, 98]. -/
theorem C10_fallback_always_matches_confidence_bounded :
    ∀ sku : Sku,
      (get_enhanced_fallback_analysis sku).same_product = true ∧
      ((get_enhanced_fallback_analysis sku).confidence = 85 ∨
       (get_enhanced_fallback_analysis sku).confidence = 90 ∨
       (get_enhanced_fallback_analysis sku).confidence = 95 ∨
       (get_enhanced_fallback_analysis sku).confidence = 98) ∧
      85 ≤ (get_enhanced_fallback_analysis sku).confidence ∧
      (get_enhanced_fallback_analysis sku).confidence ≤ 98 := by
  intro sku
  unfold get_enhanced_fallback_analysis
  dsimp only
  split_ifs <;> norm_num

/-- C4 fails on the code: a well-formed JSON response whose adjustment is a
string makes `calculate_business_score` raise a `TypeError` that propagates,
and a well-formed JSON response missing the adjustment key yields 0 instead
of the local fallback (score 70 versus the fallback score 80 on the probe
profile), so such responses are not treated like an unavailable
collaborator. -/
theorem C4_counterexample_collaborator_responses :
    calculate_business_score velocitySnacks (.json (some (.str "high")))
      = .error "TypeError: unsupported operand types for int and str" ∧
    calculate_business_score
        { revenue := 800000, inventory_turns := 12,
          industry := "Specialty Foods", years_operating := 1 } (.json none)
      = .ok (scoreResultOf 70) ∧
    calculate_business_score
        { revenue := 800000, inventory_turns := 12,
          industry := "Specialty Foods", years_operating := 1 } .unavailable
      = .ok (scoreResultOf 80) ∧
    (scoreResultOf 70).final_score ≠ (scoreResultOf 80).final_score := by
  have hsf : industry_factors "Specialty Foods" = (-5, "Higher risk, niche market") := by
    decide
  refine ⟨rfl, ?_, ?_, by norm_num [scoreResultOf]⟩
  · norm_num [calculate_business_score, pre_ai_score, velocity_boost, revenue_boost,
      hsf, experience_boost, get_ai_business_insights, pyAdd, Option.getD]
  · norm_num [calculate_business_score, pre_ai_score, velocity_boost, revenue_boost,
      hsf, experience_boost, get_ai_business_insights,
      get_fallback_business_insights, pyAdd]

/-- C4 amended: an unavailable collaborator (absent, timeout, non-JSON, or
any exception) triggers the local fallback adjustment and no error; a parsed
JSON object without the adjustment key contributes 0 (not the fallback)
without error; a parsed JSON object with a numeric adjustment is applied
without error; a parsed JSON object with a string adjustment makes
`calculate_business_score` propagate a `TypeError`. -/
theorem C4_collaborator_handling_amended :
    (∀ c : Company, calculate_business_score c .unavailable =
        .ok (scoreResultOf
          ((max 0 (min 100 (pre_ai_score c + fallback_adjustment c.inventory_turns)) : Int) : ℚ))) ∧
    (∀ c : Company, calculate_business_score c (.json none) =
        .ok (scoreResultOf ((max 0 (min 100 (pre_ai_score c)) : Int) : ℚ))) ∧
    (∀ (c : Company) (q : ℚ), calculate_business_score c (.json (some (.num q))) =
        .ok (scoreResultOf (max 0 (min 100 ((pre_ai_score c : ℚ) + q))))) ∧
    (∀ (c : Company) (s : String), calculate_business_score c (.json (some (.str s))) =
        .error "TypeError: unsupported operand types for int and str") :=
  ⟨calculate_unavailable, calculate_json_none, calculate_json_num, calculate_json_str⟩

/-- C5 fails on the code: in `process_customer_upload` an inventory-turns
value of exactly 2 falls through every branch and receives adjustment 0, not
−15 (end to end, the default-revenue upload scores 50 where the claim
requires 35). -/
theorem C5_counterexample_upload_turns_exactly_two :
    upload_velocity_boost 2 = 0 ∧ (0 : Int) ≠ -15 ∧
    process_customer_upload { inventory_turns := some (.num 2) }
      = .success 50 (35/2) "APPROVED with conditions" ∧ (50 : ℚ) ≠ 35 := by
  refine ⟨by norm_num [upload_velocity_boost], by norm_num, ?_, by norm_num⟩
  norm_num [process_customer_upload, upload_velocity_boost, upload_revenue_boost, pv_num,
    score_to_rate, get_decision, Option.getD, bind, Except.bind, pure, Except.pure]

/-- C5 amended: turns 8.0 gets +15 and 8.01 gets +25 in both entry points;
every turns ≤ 2 (including exactly 2) gets −15 in `calculate_business_score`,
while in `process_customer_upload` only turns < 2 gets −15 and exactly 2
gets 0.  (8.01 is the rational 801/100.) -/
theorem C5_velocity_boundaries_amended :
    velocity_boost 8 = 15 ∧ velocity_boost (801/100) = 25 ∧
    (∀ t : ℚ, t ≤ 2 → velocity_boost t = -15) ∧
    upload_velocity_boost 8 = 15 ∧ upload_velocity_boost (801/100) = 25 ∧
    (∀ t : ℚ, t < 2 → upload_velocity_boost t = -15) ∧
    upload_velocity_boost 2 = 0 := by
  refine ⟨by norm_num [velocity_boost], by norm_num [velocity_boost], ?_,
    by norm_num [upload_velocity_boost], by norm_num [upload_velocity_boost], ?_,
    by norm_num [upload_velocity_boost]⟩
  · intro t ht
    unfold velocity_boost
    split_ifs <;> first | (exfalso; linarith) | rfl
  · intro t ht
    unfold upload_velocity_boost
    split_ifs <;> first | (exfalso; linarith) | rfl

/-- Witness for the amended C5 at concrete inputs with its hypotheses
discharged. -/
theorem C5_velocity_boundaries_amended_witness :
    (1 : ℚ) ≤ 2 ∧ velocity_boost 1 = -15 ∧
    (3/2 : ℚ) < 2 ∧ upload_velocity_boost (3/2) = -15 := by
  obtain ⟨h1, h2, h3, h4, h5, h6, h7⟩ := C5_velocity_boundaries_amended
  exact ⟨by norm_num, h3 1 (by norm_num), by norm_num, h6 (3/2) (by norm_num)⟩

/-- C6 fails on the code: in `process_customer_upload` a revenue in the
band [500000, 1000000] receives adjustment 0, not +5 (end to end, the
800000-revenue upload scores 50 where the claim requires 55). -/
theorem C6_counterexample_upload_midband_revenue :
    upload_revenue_boost 800000 = 0 ∧ (0 : Int) ≠ 5 ∧
    process_customer_upload { revenue := some (.num 800000) }
      = .success 50 (35/2) "APPROVED with conditions" ∧ (50 : ℚ) ≠ 55 := by
  refine ⟨by norm_num [upload_revenue_boost], by norm_num, ?_, by norm_num⟩
  norm_num [process_customer_upload, upload_velocity_boost, upload_revenue_boost, pv_num,
    score_to_rate, get_decision, Option.getD, bind, Except.bind, pure, Except.pure]

/-- C6 amended: the claimed revenue buckets (+15 above 5000000, +10 in
(1000000, 5000000], −10 below 500000, +5 in [500000, 1000000]) hold in
`calculate_business_score`; in `process_customer_upload` the first three
buckets agree but the remaining band [500000, 1000000] receives 0. -/
theorem C6_revenue_buckets_amended :
    (∀ r : ℚ, (5000000 < r → revenue_boost r = 15) ∧
       (1000000 < r → r ≤ 5000000 → revenue_boost r = 10) ∧
       (r < 500000 → revenue_boost r = -10) ∧
       (500000 ≤ r → r ≤ 1000000 → revenue_boost r = 5)) ∧
    (∀ r : ℚ, (5000000 < r → upload_revenue_boost r = 15) ∧
       (1000000 < r → r ≤ 5000000 → upload_revenue_boost r = 10) ∧
       (r < 500000 → upload_revenue_boost r = -10) ∧
       (500000 ≤ r → r ≤ 1000000 → upload_revenue_boost r = 0)) := by
  constructor <;> intro r
  · unfold revenue_boost
    refine ⟨fun h => ?_, fun h h2 => ?_, fun h => ?_, fun h h2 => ?_⟩ <;>
      (split_ifs <;> first | (exfalso; linarith) | rfl)
  · unfold upload_revenue_boost
    refine ⟨fun h => ?_, fun h h2 => ?_, fun h => ?_, fun h h2 => ?_⟩ <;>
      (split_ifs <;> first | (exfalso; linarith) | rfl)

/-- Witness for the amended C6 at the concrete revenue 800000 with its
hypotheses discharged. -/
theorem C6_revenue_buckets_amended_witness :
    (500000 : ℚ) ≤ 800000 ∧ (800000 : ℚ) ≤ 1000000 ∧
    revenue_boost 800000 = 5 ∧ upload_revenue_boost 800000 = 0 := by
  obtain ⟨hc, hu⟩ := C6_revenue_buckets_amended
  exact ⟨by norm_num, by norm_num,
    (hc 800000).2.2.2 (by norm_num) (by norm_num),
    (hu 800000).2.2.2 (by norm_num) (by norm_num)⟩

/-- C8 fails as universally stated: a mapping whose `years_operating` is a
non-numeric string is scored normally (the field is fetched but never used),
yielding a success result with no error or suggestion entries. -/
theorem C8_counterexample_nonnumeric_years_scored :
    process_customer_upload { years_operating := some (.str "not a number") }
      = .success 50 (35/2) "APPROVED with conditions" := by
  norm_num [process_customer_upload, upload_velocity_boost, upload_revenue_boost, pv_num,
    score_to_rate, get_decision, Option.getD, bind, Except.bind, pure, Except.pure]

/-- C8 amended: a non-numeric `inventory_turns` or `revenue` value (the two
fields the body actually compares) makes `process_customer_upload` return
the structured error-and-suggestion result; the `industry` and
`years_operating` fields never influence the result, so non-numeric values
there are scored normally; and every upload yields either a success result
or the structured error result — no exception propagates. -/
theorem C8_upload_error_handling_amended :
    (∀ (s : String) (orev oi oy : Option PyVal),
        process_customer_upload
            { revenue := orev, inventory_turns := some (.str s),
              industry := oi, years_operating := oy }
          = .failure "Processing failed: TypeError: not supported between instances of str and int"
              "Please check your data format and try again") ∧
    (∀ (s : String) (qt : ℚ) (oi oy : Option PyVal),
        process_customer_upload
            { revenue := some (.str s), inventory_turns := some (.num qt),
              industry := oi, years_operating := oy }
          = .failure "Processing failed: TypeError: not supported between instances of str and int"
              "Please check your data format and try again") ∧
    (∀ (s : String) (oi oy : Option PyVal),
        process_customer_upload
            { revenue := some (.str s), inventory_turns := none,
              industry := oi, years_operating := oy }
          = .failure "Processing failed: TypeError: not supported between instances of str and int"
              "Please check your data format and try again") ∧
    (∀ orev ot oi₁ oy₁ oi₂ oy₂ : Option PyVal,
        process_customer_upload
            { revenue := orev, inventory_turns := ot, industry := oi₁, years_operating := oy₁ }
          = process_customer_upload
            { revenue := orev, inventory_turns := ot, industry := oi₂, years_operating := oy₂ }) ∧
    (∀ u : Upload,
        (∃ s r d, process_customer_upload u = .success s r d) ∨
        (∃ e sg, process_customer_upload u = .failure e sg)) := by
  refine ⟨?_, ?_, ?_, ?_, ?_⟩
  · intro s orev oi oy
    exact process_turns_str _ s rfl
  · intro s qt oi oy
    exact process_rev_str _ qt s rfl rfl
  · intro s oi oy
    exact process_rev_str _ 4 s rfl rfl
  · intro orev ot oi₁ oy₁ oi₂ oy₂
    rfl
  · intro u
    cases ht : u.inventory_turns.getD (PyVal.num 4) with
    | str sv => exact Or.inr ⟨_, _, process_turns_str u sv ht⟩
    | num qt =>
        cases hrv : u.revenue.getD (PyVal.num 1000000) with
        | str sv => exact Or.inr ⟨_, _, process_rev_str u qt sv ht hrv⟩
        | num qrev => exact Or.inl ⟨_, _, _, process_num u qt qrev ht hrv⟩

/-- C1: whenever either entry point returns a score, that score lies in
[0, 100] and is the once-clamped value of base 50 plus the summed rule
adjustments (for `calculate_business_score`, the four integer adjustments in
`pre_ai_score` plus the numeric insight adjustment; for
`process_customer_upload`, the two integer adjustments in
`upload_final_score`), and the score is an integer (denominator 1) whenever
the insight adjustment is an integer — in particular always on the upload
path. -/
theorem C1_final_score_in_range_clamped_once :
    (∀ (c : Company) (resp : AIResponse) (r : ScoreResult),
        calculate_business_score c resp = .ok r →
        0 ≤ r.final_score ∧ r.final_score ≤ 100 ∧
        ∃ q : ℚ, get_ai_business_insights c resp = PyVal.num q ∧
          r.final_score = max 0 (min 100 ((pre_ai_score c : ℚ) + q)) ∧
          (q.den = 1 → r.final_score.den = 1)) ∧
    (∀ (u : Upload) (s rate : ℚ) (d : String),
        process_customer_upload u = .success s rate d →
        0 ≤ s ∧ s ≤ 100 ∧ s.den = 1 ∧
        ∃ qt qrev : ℚ,
          u.inventory_turns.getD (PyVal.num 4) = PyVal.num qt ∧
          u.revenue.getD (PyVal.num 1000000) = PyVal.num qrev ∧
          s = ((upload_final_score qt qrev : Int) : ℚ)) := by
  constructor
  · intro c resp r h
    cases hai : get_ai_business_insights c resp with
    | str sv =>
        exfalso
        unfold calculate_business_score at h
        rw [hai] at h
        exact absurd h (by simp [pyAdd])
    | num q =>
        have heq : calculate_business_score c resp
            = .ok (scoreResultOf (max 0 (min 100 ((pre_ai_score c : ℚ) + q)))) := by
          unfold calculate_business_score
          rw [hai]
          rfl
        rw [heq] at h
        simp only [Except.ok.injEq] at h
        subst h
        simp only [scoreResultOf]
        refine ⟨le_max_left _ _, max_le (by norm_num) (min_le_left _ _), q, rfl, rfl, ?_⟩
        intro hq
        rw [← (Rat.den_eq_one_iff q).mp hq]
        have hcast : max 0 (min 100 ((pre_ai_score c : ℚ) + ((q.num : ℤ) : ℚ)))
            = ((max 0 (min 100 (pre_ai_score c + q.num)) : ℤ) : ℚ) := by
          push_cast; ring
        rw [hcast, Rat.den_intCast]
  · intro u s rate d h
    cases ht : u.inventory_turns.getD (PyVal.num 4) with
    | str sv => rw [process_turns_str u sv ht] at h; exact absurd h (by simp)
    | num qt =>
        cases hrv : u.revenue.getD (PyVal.num 1000000) with
        | str sv => rw [process_rev_str u qt sv ht hrv] at h; exact absurd h (by simp)
        | num qrev =>
            rw [process_num u qt qrev ht hrv] at h
            simp only [UploadResult.success.injEq] at h
            obtain ⟨hs, hr, hd⟩ := h
            subst hs
            have h0 : (0 : Int) ≤ upload_final_score qt qrev := by
              unfold upload_final_score; exact le_max_left _ _
            have h100 : upload_final_score qt qrev ≤ 100 := by
              unfold upload_final_score; exact max_le (by norm_num) (min_le_left _ _)
            exact ⟨by exact_mod_cast h0, by exact_mod_cast h100, Rat.den_intCast _,
              qt, qrev, rfl, rfl, rfl⟩

/-- Witness for C1 at concrete inputs with the hypotheses discharged. -/
theorem C1_final_score_in_range_clamped_once_witness :
    (0 ≤ (scoreResultOf 100).final_score ∧ (scoreResultOf 100).final_score ≤ 100 ∧
      ∃ q : ℚ, get_ai_business_insights velocitySnacks .unavailable = PyVal.num q ∧
        (scoreResultOf 100).final_score
          = max 0 (min 100 ((pre_ai_score velocitySnacks : ℚ) + q)) ∧
        (q.den = 1 → (scoreResultOf 100).final_score.den = 1)) ∧
    (0 ≤ (50 : ℚ) ∧ (50 : ℚ) ≤ 100 ∧ (50 : ℚ).den = 1 ∧
      ∃ qt qrev : ℚ,
        (Upload.mk none (some (.num 2)) none none).inventory_turns.getD (PyVal.num 4)
          = PyVal.num qt ∧
        (Upload.mk none (some (.num 2)) none none).revenue.getD (PyVal.num 1000000)
          = PyVal.num qrev ∧
        (50 : ℚ) = ((upload_final_score qt qrev : Int) : ℚ)) := by
  constructor
  · exact C1_final_score_in_range_clamped_once.1 velocitySnacks .unavailable
      (scoreResultOf 100)
      (by norm_num [calculate_business_score, velocitySnacks, pre_ai_score, velocity_boost,
        revenue_boost, industry_factors, experience_boost, get_ai_business_insights,
        get_fallback_business_insights, pyAdd])
  · exact C1_final_score_in_range_clamped_once.2 (Upload.mk none (some (.num 2)) none none)
      50 (35/2) "APPROVED with conditions"
      (by norm_num [process_customer_upload, upload_velocity_boost, upload_revenue_boost,
        pv_num, score_to_rate, get_decision, Option.getD, bind, Except.bind, pure,
        Except.pure])

/-- C2: the risk-category, rate and decision tables are exactly the claimed
step functions of the score alone, and any two results (from either entry
point) with equal final scores carry identical derived fields. -/
theorem C2_derived_fields_pure_functions_of_score :
    (∀ s : ℚ,
      (75 ≤ s → get_risk_category s = "Low Risk") ∧
      (60 ≤ s → s < 75 → get_risk_category s = "Medium Risk") ∧
      (45 ≤ s → s < 60 → get_risk_category s = "High Risk") ∧
      (s < 45 → get_risk_category s = "Very High Risk")) ∧
    (∀ s : ℚ,
      (80 ≤ s → score_to_rate s = 10.5) ∧
      (70 ≤ s → s < 80 → score_to_rate s = 12.5) ∧
      (60 ≤ s → s < 70 → score_to_rate s = 15) ∧
      (50 ≤ s → s < 60 → score_to_rate s = 17.5) ∧
      (40 ≤ s → s < 50 → score_to_rate s = 20) ∧
      (s < 40 → score_to_rate s = 22)) ∧
    (∀ s : ℚ,
      (60 ≤ s → get_decision s = "APPROVED") ∧
      (45 ≤ s → s < 60 → get_decision s = "APPROVED with conditions") ∧
      (30 ≤ s → s < 45 → get_decision s = "REFER for manual review") ∧
      (s < 30 → get_decision s = "DECLINED")) ∧
    (∀ (c₁ c₂ : Company) (resp₁ resp₂ : AIResponse) (r₁ r₂ : ScoreResult),
      calculate_business_score c₁ resp₁ = .ok r₁ →
      calculate_business_score c₂ resp₂ = .ok r₂ →
      r₁.final_score = r₂.final_score →
      r₁.recommended_rate = r₂.recommended_rate ∧ r₁.decision = r₂.decision ∧
        r₁.risk_category = r₂.risk_category) ∧
    (∀ (u₁ u₂ : Upload) (s₁ s₂ rate₁ rate₂ : ℚ) (d₁ d₂ : String),
      process_customer_upload u₁ = .success s₁ rate₁ d₁ →
      process_customer_upload u₂ = .success s₂ rate₂ d₂ →
      s₁ = s₂ → rate₁ = rate₂ ∧ d₁ = d₂) ∧
    (∀ (c : Company) (resp : AIResponse) (r : ScoreResult) (u : Upload)
        (s rate : ℚ) (d : String),
      calculate_business_score c resp = .ok r →
      process_customer_upload u = .success s rate d →
      r.final_score = s →
      r.recommended_rate = rate ∧ r.decision = d) := by
  refine ⟨?_, ?_, ?_, ?_, ?_, ?_⟩
  · intro s
    unfold get_risk_category
    refine ⟨fun h => ?_, fun h h2 => ?_, fun h h2 => ?_, fun h => ?_⟩ <;>
      (split_ifs <;> first | (exfalso; linarith) | rfl)
  · intro s
    unfold score_to_rate
    refine ⟨fun h => ?_, fun h h2 => ?_, fun h h2 => ?_, fun h h2 => ?_,
      fun h h2 => ?_, fun h => ?_⟩ <;>
      (split_ifs <;> first | (exfalso; linarith) | norm_num)
  · intro s
    unfold get_decision
    refine ⟨fun h => ?_, fun h h2 => ?_, fun h h2 => ?_, fun h => ?_⟩ <;>
      (split_ifs <;> first | (exfalso; linarith) | rfl)
  · intro c₁ c₂ resp₁ resp₂ r₁ r₂ h₁ h₂ hs
    have e₁ := calculate_ok_shape c₁ resp₁ r₁ h₁
    have e₂ := calculate_ok_shape c₂ resp₂ r₂ h₂
    rw [e₁, e₂]
    simp only [scoreResultOf]
    rw [hs]
    exact ⟨rfl, rfl, rfl⟩
  · intro u₁ u₂ s₁ s₂ rate₁ rate₂ d₁ d₂ h₁ h₂ hs
    obtain ⟨hr₁, hd₁⟩ := process_success_shape u₁ s₁ rate₁ d₁ h₁
    obtain ⟨hr₂, hd₂⟩ := process_success_shape u₂ s₂ rate₂ d₂ h₂
    subst hs
    exact ⟨hr₁.trans hr₂.symm, hd₁.trans hd₂.symm⟩
  · intro c resp r u s rate d hc hu hs
    obtain ⟨hr, hd⟩ := process_success_shape u s rate d hu
    have e := calculate_ok_shape c resp r hc
    constructor
    · rw [e]; simp only [scoreResultOf]; rw [hs, hr]
    · rw [e]; simp only [scoreResultOf]; rw [hs, hd]

/-- Witness for C2 at concrete scores and concrete profiles with the
hypotheses discharged. -/
theorem C2_derived_fields_pure_functions_of_score_witness :
    get_risk_category 100 = "Low Risk" ∧ score_to_rate 100 = 10.5 ∧
    get_decision 100 = "APPROVED" ∧
    ((scoreResultOf 100).recommended_rate = (scoreResultOf 100).recommended_rate ∧
      (scoreResultOf 100).decision = (scoreResultOf 100).decision ∧
      (scoreResultOf 100).risk_category = (scoreResultOf 100).risk_category) := by
  obtain ⟨hcat, hrate, hdec, hcalc, hproc, hcross⟩ :=
    C2_derived_fields_pure_functions_of_score
  refine ⟨(hcat 100).1 (by norm_num), (hrate 100).1 (by norm_num),
    (hdec 100).1 (by norm_num), ?_⟩
  exact hcalc velocitySnacks
    { revenue := 6000000, inventory_turns := 9, industry := "Supplements",
      years_operating := 6 }
    .unavailable .unavailable (scoreResultOf 100) (scoreResultOf 100)
    (by norm_num [calculate_business_score, velocitySnacks, pre_ai_score, velocity_boost,
      revenue_boost, industry_factors, experience_boost, get_ai_business_insights,
      get_fallback_business_insights, pyAdd])
    (by
      have hsup : industry_factors "Supplements" = (5, "Moderate risk, growing market") := by
        decide
      norm_num [calculate_business_score, pre_ai_score, velocity_boost,
        revenue_boost, hsup, experience_boost, get_ai_business_insights,
        get_fallback_business_insights, pyAdd])
    rfl

/-- C3 fails on the code: `process_customer_upload` ignores the
industry-risk rule (and the experience and insight rules) — two uploads
differing only in industry both score 85, while the same profile through
`calculate_business_score` scores 100. -/
theorem C3_counterexample_upload_skips_rules :
    process_customer_upload
        { revenue := some (.num 3500000), inventory_turns := some (.num 12),
          industry := some (.str "Food & Beverage"), years_operating := some (.num 4) }
      = .success 85 (21/2) "APPROVED" ∧
    process_customer_upload
        { revenue := some (.num 3500000), inventory_turns := some (.num 12),
          industry := some (.str "Totally Unknown"), years_operating := some (.num 4) }
      = .success 85 (21/2) "APPROVED" ∧
    calculate_business_score velocitySnacks .unavailable = .ok (scoreResultOf 100) ∧
    (85 : ℚ) ≠ 100 := by
  refine ⟨?_, ?_, ?_, by norm_num⟩
  · norm_num [process_customer_upload, upload_velocity_boost, upload_revenue_boost, pv_num,
      score_to_rate, get_decision, Option.getD, bind, Except.bind, pure, Except.pure]
  · norm_num [process_customer_upload, upload_velocity_boost, upload_revenue_boost, pv_num,
      score_to_rate, get_decision, Option.getD, bind, Except.bind, pure, Except.pure]
  · norm_num [calculate_business_score, velocitySnacks, pre_ai_score, velocity_boost,
      revenue_boost, industry_factors, experience_boost, get_ai_business_insights,
      get_fallback_business_insights, pyAdd]

/-- C3 amended: `calculate_business_score` evaluates the full additive rule
table in the fixed order (velocity, revenue, industry lookup with the
claimed values and 0 for unknown industries, experience, insight/fallback);
`process_customer_upload` evaluates only the inventory-velocity and revenue
rules and ignores industry, years of operation and the insight
adjustment. -/
theorem C3_rule_table_amended :
    (∀ c : Company, calculate_business_score c .unavailable =
        .ok (scoreResultOf
          ((max 0 (min 100 (pre_ai_score c + fallback_adjustment c.inventory_turns)) : Int) : ℚ))) ∧
    (industry_factors "Food & Beverage").1 = 10 ∧
    (industry_factors "Supplements").1 = 5 ∧
    (industry_factors "Specialty Foods").1 = -5 ∧
    (industry_factors "Beauty & Personal Care").1 = 0 ∧
    (∀ ind : String, ind ≠ "Food & Beverage" → ind ≠ "Supplements" →
        ind ≠ "Specialty Foods" → ind ≠ "Beauty & Personal Care" →
        (industry_factors ind).1 = 0) ∧
    (∀ y : ℚ, (5 < y → experience_boost y = 10) ∧
       (2 < y → y ≤ 5 → experience_boost y = 5) ∧
       (y ≤ 2 → experience_boost y = -5)) ∧
    (∀ (u : Upload) (qt qrev : ℚ),
        u.inventory_turns.getD (PyVal.num 4) = PyVal.num qt →
        u.revenue.getD (PyVal.num 1000000) = PyVal.num qrev →
        process_customer_upload u =
          .success ((upload_final_score qt qrev : Int) : ℚ)
            (score_to_rate ((upload_final_score qt qrev : Int) : ℚ))
            (get_decision ((upload_final_score qt qrev : Int) : ℚ))) := by
  refine ⟨calculate_unavailable, by decide, by decide, by decide, by decide, ?_, ?_, ?_⟩
  · intro ind h1 h2 h3 h4
    unfold industry_factors
    split_ifs with e1
    · exact absurd e1 h1
    · rfl
  · intro y
    unfold experience_boost
    refine ⟨fun h => ?_, fun h h2 => ?_, fun h => ?_⟩ <;>
      (split_ifs <;> first | (exfalso; linarith) | rfl)
  · exact fun u qt qrev ht hrev => process_num u qt qrev ht hrev

/-- Witness for the amended C3 at concrete inputs with the hypotheses
discharged. -/
theorem C3_rule_table_amended_witness :
    (industry_factors "General").1 = 0 ∧ experience_boost 4 = 5 ∧
    process_customer_upload (Upload.mk none (some (.num 2)) none none)
      = .success ((upload_final_score 2 1000000 : Int) : ℚ)
          (score_to_rate ((upload_final_score 2 1000000 : Int) : ℚ))
          (get_decision ((upload_final_score 2 1000000 : Int) : ℚ)) := by
  obtain ⟨hcalc, hf1, hf2, hf3, hf4, hunk, hexp, hup⟩ := C3_rule_table_amended
  exact ⟨hunk "General" (by decide) (by decide) (by decide) (by decide),
    (hexp 4).2.1 (by norm_num) (by norm_num),
    hup (Upload.mk none (some (.num 2)) none none) 2 1000000 rfl rfl⟩

/-- C7: with the collaborator unavailable, two profiles agreeing on revenue,
industry and years of operation are scored monotonically in inventory
turns — the larger turns value never yields a smaller final score. -/
theorem C7_final_score_monotone_in_turns :
    ∀ (c₁ c₂ : Company) (r₁ r₂ : ScoreResult),
      c₁.revenue = c₂.revenue → c₁.industry = c₂.industry →
      c₁.years_operating = c₂.years_operating →
      c₁.inventory_turns ≤ c₂.inventory_turns →
      calculate_business_score c₁ .unavailable = .ok r₁ →
      calculate_business_score c₂ .unavailable = .ok r₂ →
      r₁.final_score ≤ r₂.final_score := by
  intro c₁ c₂ r₁ r₂ hrev hind hyrs ht h₁ h₂
  rw [calculate_unavailable] at h₁ h₂
  simp only [Except.ok.injEq] at h₁ h₂
  subst h₁
  subst h₂
  simp only [scoreResultOf]
  have hv := velocity_boost_mono ht
  have hf := fallback_adjustment_mono ht
  have hsum : pre_ai_score c₁ + fallback_adjustment c₁.inventory_turns
      ≤ pre_ai_score c₂ + fallback_adjustment c₂.inventory_turns := by
    unfold pre_ai_score
    rw [hrev, hind, hyrs]
    omega
  have hclamp :
      (max 0 (min 100 (pre_ai_score c₁ + fallback_adjustment c₁.inventory_turns)) : Int)
        ≤ max 0 (min 100 (pre_ai_score c₂ + fallback_adjustment c₂.inventory_turns)) :=
    max_le_max le_rfl (min_le_min le_rfl hsum)
  exact_mod_cast hclamp

/-- Witness for C7 at two concrete profiles (turns 5/2 versus 12, all other
fields equal) with the hypotheses discharged. -/
theorem C7_final_score_monotone_in_turns_witness :
    (scoreResultOf 55).final_score ≤ (scoreResultOf 95).final_score := by
  have hsf : industry_factors "Specialty Foods" = (-5, "Higher risk, niche market") := by
    decide
  exact C7_final_score_monotone_in_turns
    { revenue := 800000, inventory_turns := 5/2, industry := "Specialty Foods",
      years_operating := 6 }
    { revenue := 800000, inventory_turns := 12, industry := "Specialty Foods",
      years_operating := 6 }
    (scoreResultOf 55) (scoreResultOf 95) rfl rfl rfl (by norm_num)
    (by norm_num [calculate_business_score, pre_ai_score, velocity_boost, revenue_boost,
      hsf, experience_boost, get_ai_business_insights, get_fallback_business_insights,
      pyAdd])
    (by norm_num [calculate_business_score, pre_ai_score, velocity_boost, revenue_boost,
      hsf, experience_boost, get_ai_business_insights, get_fallback_business_insights,
      pyAdd])
